import Mathlib

/-!
Verification development for the immersive fullscreen reveal/auto-hide
controller of this repository (brave/browser/ui/immersive_fullscreen).

Two embeddings are developed side by side:

* the C++ `ImmersiveFullscreenController`.  Its full implementation is
  present in the repository, appended to
  `src/docs/examples/local_model_classifier.cc` (lines 233-722, after
  the tab-focus classifier it is concatenated with); the data model
  follows the controller's header
  (`immersive_fullscreen_controller.h`).  Each operation below is
  translated from that body and cites its line range.  External
  collaborators are modelled as follows: the preference service is an
  immutable `Config` snapshot (the controller reads each preference
  through `pref_service_` at fixed keys); `GetBrowserScreenBounds()`
  (the widget's screen bounds) is a fixed rectangle in `Config`; the
  `gfx::SlideAnimation` driver is two booleans, `animShowing` for
  `IsShowing()` (the current slide direction) and `animRunning` for
  whether the driver is active and will deliver
  `AnimationProgressed`/`AnimationEnded` delegate callbacks —
  `Show()`/`Hide()` set the direction and start it, `End()` stops it;
  the three managed surfaces (toolbar, tab strip, bookmarks bar) always
  receive the same `SetVisible` command, recorded as one boolean;

* a direct translation of the JavaScript
  `ImmersiveFullscreenEventHandler` class (appended to the unit-test
  file).  Its DOM side effects (CSS classes, event dispatch, console
  logging) carry no state consumed by any handler, so the embedding
  tracks the fields of the class plus the pending auto-hide timeout;
  the `document.activeElement` query of `isAddressBarFocused()` is
  modelled as a boolean field of the state.
-/

/-- The controller's `State` enum (`immersive_fullscreen_controller.h`):
`kDisabled`, `kEnabled` (UI hidden), `kRevealed`, `kPinned`. -/
inductive Mode where
  | disabled
  | enabled
  | revealed
  | pinned
deriving DecidableEq, Repr

/-- The controller's `AnimationState` enum: `kNone`, `kShowingUI`,
`kHidingUI` — here `idle`, `showing`, `hiding`. -/
inductive AnimPhase where
  | idle
  | showing
  | hiding
deriving DecidableEq, Repr

/-- Observer notifications of `ImmersiveFullscreenObserver`:
`OnImmersiveUIVisibilityChanged`, `OnImmersiveModeToggled`,
`OnMouseHoverStateChanged`, in emission order. -/
inductive Note where
  | visibilityChanged (visible : Bool)
  | modeToggled (flag : Bool)
  | hoverChanged (hovering : Bool)
deriving DecidableEq, Repr

/-- A `gfx::Point` in screen coordinates. -/
structure GfxPoint where
  x : Int
  y : Int
deriving DecidableEq, Repr

/-- A `gfx::Rect` in screen coordinates. -/
structure GfxRect where
  x : Int
  y : Int
  width : Int
  height : Int
deriving DecidableEq, Repr

/-- `gfx::Rect::right()`: `x() + width()`. -/
def GfxRect.right (r : GfxRect) : Int := r.x + r.width

/-- Configuration snapshot read from the preference service
(`pref_names.h`): the top-edge sensitivity, the reveal-trigger
toggles, the legacy-suppression flag together with the external legacy
"always show toolbar in fullscreen" condition
(`::prefs::kShowFullscreenToolbar`), the umbrella
`kImmersiveFullscreenEnabled` preference consulted on fullscreen
entry, and the browser window's screen bounds returned by
`GetBrowserScreenBounds()`. -/
structure Config where
  topEdgeSensitivityPx : Int
  showOnAddressBarFocus : Bool
  showOnKeyboardActivity : Bool
  respectLegacyFullscreenPref : Bool
  legacyAlwaysShowToolbar : Bool
  immersiveFullscreenEnabled : Bool
  browserBounds : GfxRect
deriving DecidableEq, Repr

/-- The configuration registered by the unit-test fixture: sensitivity
5 px, reveal on address-bar focus, no reveal on keyboard activity,
respect the legacy preference (which itself defaults to "not always
show"), and a 1200 x 800 window at the origin. -/
def defaultConfig : Config :=
  { topEdgeSensitivityPx := 5
    showOnAddressBarFocus := true
    showOnKeyboardActivity := false
    respectLegacyFullscreenPref := true
    legacyAlwaysShowToolbar := false
    immersiveFullscreenEnabled := true
    browserBounds := { x := 0, y := 0, width := 1200, height := 800 } }

/-- Controller state: `state_`, `animation_state_`, `should_show_ui_`,
`address_bar_focused_`, `mouse_in_top_edge_`, whether the one-shot
`auto_hide_timer_` is pending, the slide animation's direction
(`animation_->IsShowing()`) and whether it is running, the (uniform)
commanded visibility of the managed surfaces, and the persisted
`kHasSeenIntroduction` preference. -/
structure CState where
  mode : Mode
  anim : AnimPhase
  shouldShowUi : Bool
  addressBarFocused : Bool
  mouseInTopEdge : Bool
  timerPending : Bool
  animShowing : Bool
  animRunning : Bool
  surfacesVisible : Bool
  hasSeenIntroduction : Bool
deriving DecidableEq, Repr

/-- The freshly constructed controller: disabled, no animation (a new
`SlideAnimation` is at value 0 and not showing), no input signals, no
timer, surfaces visible, introduction not yet seen. -/
def initState : CState :=
  { mode := Mode.disabled
    anim := AnimPhase.idle
    shouldShowUi := false
    addressBarFocused := false
    mouseInTopEdge := false
    timerPending := false
    animShowing := false
    animRunning := false
    surfacesVisible := true
    hasSeenIntroduction := false }

/-- `IsEnabled()` from the header: `state_ != State::kDisabled`. -/
def IsEnabled (s : CState) : Bool :=
  !(decide (s.mode = Mode.disabled))

/-- `IsUIVisible()` from the header: `state_ == kRevealed || state_ ==
kPinned`. -/
def IsUIVisible (s : CState) : Bool :=
  match s.mode with
  | Mode.revealed => true
  | Mode.pinned => true
  | _ => false

/-- `ShouldDisableImmersiveMode()` (local_model_classifier.cc:662-671):
true when `kRespectLegacyFullscreenPref` is set and the legacy
`kShowFullscreenToolbar` preference holds. -/
def ShouldDisableImmersiveMode (cfg : Config) : Bool :=
  cfg.respectLegacyFullscreenPref && cfg.legacyAlwaysShowToolbar

/-- `ScheduleAutoHide()` (local_model_classifier.cc:627-634): starts
(restarting if already running) the one-shot auto-hide timer. -/
def ScheduleAutoHide (s : CState) : CState :=
  { s with timerPending := true }

/-- `CancelAutoHide()` (local_model_classifier.cc:636-638): stops the
auto-hide timer. -/
def CancelAutoHide (s : CState) : CState :=
  { s with timerPending := false }

/-- `SetAllUIElementsVisible(visible)` (local_model_classifier.cc:
690-695): commands the toolbar, tab strip and bookmarks bar to the
given visibility (download shelf and infobars are not controlled). -/
def SetAllUIElementsVisible (s : CState) (visible : Bool) : CState :=
  { s with surfacesVisible := visible }

/-- `AnimateShowUI()` (local_model_classifier.cc:574-586): no-op if the
phase is already `kShowingUI`; otherwise sets that phase, and unless
the driver already slides toward shown (`animation_->IsShowing()`)
calls `animation_->Show()`, which sets the direction and starts the
driver. -/
def AnimateShowUI (s : CState) : CState :=
  if s.anim = AnimPhase.showing then s
  else
    let s1 := { s with anim := AnimPhase.showing }
    if s1.animShowing then s1
    else { s1 with animShowing := true, animRunning := true }

/-- `AnimateHideUI()` (local_model_classifier.cc:588-601): no-op if the
phase is already `kHidingUI`; otherwise sets that phase, and unless the
driver already slides toward hidden calls `animation_->Hide()`. -/
def AnimateHideUI (s : CState) : CState :=
  if s.anim = AnimPhase.hiding then s
  else
    let s1 := { s with anim := AnimPhase.hiding }
    if !s1.animShowing then s1
    else { s1 with animShowing := false, animRunning := true }

/-- `CompleteAnimation()` (local_model_classifier.cc:603-610): no-op if
the phase is `kNone`; otherwise `animation_->End()` stops the driver
and the phase is reset.  `End()`'s synchronous completion callback only
re-clears the phase and issues a surface command that the sole caller,
`SetEnabled(false)`, immediately overrides with
`SetAllUIElementsVisible(true)`, so it is not modelled separately. -/
def CompleteAnimation (s : CState) : CState :=
  if s.anim = AnimPhase.idle then s
  else { s with anim := AnimPhase.idle, animRunning := false }

/-- `IsMouseInTopEdge(location_in_screen)` (local_model_classifier.cc:
613-621): the point lies in the browser bounds' x-range, with its y at
or past `bounds.y()` and strictly less than
`bounds.y() + sensitivity`. -/
def IsMouseInTopEdge (cfg : Config) (p : GfxPoint) : Bool :=
  decide (cfg.browserBounds.x ≤ p.x) &&
    decide (p.x < cfg.browserBounds.right) &&
    decide (cfg.browserBounds.y ≤ p.y) &&
    decide (p.y < cfg.browserBounds.y + cfg.topEdgeSensitivityPx)

/-- `RevealUI()` (local_model_classifier.cc:371-389): no-op when
disabled; records whether the UI was visible, promotes `kEnabled` to
`kRevealed`, cancels the auto-hide timer, starts the show animation,
and notifies `OnImmersiveUIVisibilityChanged(true)` when the UI was not
already visible. -/
def RevealUI (s : CState) : CState × List Note :=
  if s.mode = Mode.disabled then (s, [])
  else
    let wasVisible := IsUIVisible s
    let s1 := if s.mode = Mode.enabled then { s with mode := Mode.revealed } else s
    let s2 := AnimateShowUI (CancelAutoHide s1)
    (s2, if wasVisible then [] else [Note.visibilityChanged true])

/-- `HideUIAfterDelay()` (local_model_classifier.cc:391-400): no-op
when disabled or pinned, or while `should_show_ui_` or
`address_bar_focused_` holds; otherwise schedules the auto-hide
timer. -/
def HideUIAfterDelay (s : CState) : CState × List Note :=
  if s.mode = Mode.disabled ∨ s.mode = Mode.pinned then (s, [])
  else if s.shouldShowUi || s.addressBarFocused then (s, [])
  else (ScheduleAutoHide s, [])

/-- `HideUIImmediately()` (local_model_classifier.cc:403-418): no-op
when disabled or pinned; otherwise cancels the timer, records whether
the UI was visible, sets `kEnabled`, starts the hide animation, and
notifies `OnImmersiveUIVisibilityChanged(false)` when the UI had been
visible.  There is no address-bar-focus guard. -/
def HideUIImmediately (s : CState) : CState × List Note :=
  if s.mode = Mode.disabled ∨ s.mode = Mode.pinned then (s, [])
  else
    let s1 := CancelAutoHide s
    let wasVisible := IsUIVisible s1
    let s2 := AnimateHideUI { s1 with mode := Mode.enabled }
    (s2, if wasVisible then [Note.visibilityChanged false] else [])

/-- `PinUI()` (local_model_classifier.cc:420-434): no-op when disabled;
cancels the timer, sets `kPinned`, and only when the UI was not already
visible starts the show animation and notifies
`OnImmersiveUIVisibilityChanged(true)`. -/
def PinUI (s : CState) : CState × List Note :=
  if s.mode = Mode.disabled then (s, [])
  else
    let s1 := CancelAutoHide s
    let wasVisible := IsUIVisible s1
    let s2 := { s1 with mode := Mode.pinned }
    if wasVisible then (s2, [])
    else (AnimateShowUI s2, [Note.visibilityChanged true])

/-- `UnpinUI()` (local_model_classifier.cc:436-447): no-op unless
pinned; sets `kRevealed`, and when neither `should_show_ui_` nor
`address_bar_focused_` holds calls `HideUIAfterDelay()`. -/
def UnpinUI (s : CState) : CState × List Note :=
  if s.mode = Mode.pinned then
    let s1 := { s with mode := Mode.revealed }
    if !s1.shouldShowUi && !s1.addressBarFocused then HideUIAfterDelay s1
    else (s1, [])
  else (s, [])

/-- `SetEnabled(enabled)` (local_model_classifier.cc:326-369): returns
when the requested on/off state already holds or when enabling is
suppressed by `ShouldDisableImmersiveMode()`.  Enabling sets
`kEnabled`, records `kHasSeenIntroduction` (the code writes it only
when still false; the resulting preference value is true either way),
then reveals if an input signal is held, else starts the hide
animation.  Disabling sets `kDisabled`, cancels the timer,
force-completes the animation and commands all surfaces visible.
Finally `OnImmersiveModeToggled` is notified when the state changed,
which in the surviving branches is always: enabling starts from
`kDisabled` and ends in `kEnabled` or `kRevealed`, disabling starts
from a non-`kDisabled` state.  Hence on an enable that reveals, the
visibility notification (from inside `RevealUI`) precedes the mode
notification, and disabling emits no visibility notification. -/
def SetEnabled (cfg : Config) (s : CState) (turnOn : Bool) : CState × List Note :=
  if turnOn = IsEnabled s then (s, [])
  else if turnOn && ShouldDisableImmersiveMode cfg then (s, [])
  else if turnOn then
    let s1 := { s with mode := Mode.enabled, hasSeenIntroduction := true }
    let r := if s1.shouldShowUi || s1.addressBarFocused then RevealUI s1
      else (AnimateHideUI s1, [])
    (r.1, r.2 ++ [Note.modeToggled true])
  else
    let s1 := CompleteAnimation (CancelAutoHide { s with mode := Mode.disabled })
    (SetAllUIElementsVisible s1 true, [Note.modeToggled false])

/-- `OnMouseMoved(location_in_screen)` (local_model_classifier.cc:
449-472): no-op when disabled; recomputes `mouse_in_top_edge_`,
notifies `OnMouseHoverStateChanged` on any change, copies the result
into `should_show_ui_`, then on a false-to-true edge of
`should_show_ui_` reveals, and on a true-to-false edge with the
address bar unfocused schedules the auto-hide. -/
def OnMouseMoved (cfg : Config) (s : CState) (p : GfxPoint) : CState × List Note :=
  if s.mode = Mode.disabled then (s, [])
  else
    let wasInTopEdge := s.mouseInTopEdge
    let s1 := { s with mouseInTopEdge := IsMouseInTopEdge cfg p }
    let hoverNotes :=
      if s1.mouseInTopEdge = wasInTopEdge then []
      else [Note.hoverChanged s1.mouseInTopEdge]
    let oldShouldShow := s1.shouldShowUi
    let s2 := { s1 with shouldShowUi := s1.mouseInTopEdge }
    if s2.shouldShowUi && !oldShouldShow then
      let r := RevealUI s2
      (r.1, hoverNotes ++ r.2)
    else if !s2.shouldShowUi && oldShouldShow && !s2.addressBarFocused then
      let r := HideUIAfterDelay s2
      (r.1, hoverNotes ++ r.2)
    else (s2, hoverNotes)

/-- `OnAddressBarFocused()` (local_model_classifier.cc:474-480): sets
the focus signal; reveals only when `kShowOnAddressBarFocus` is set and
the controller is not disabled (any timer cancellation happens inside
`RevealUI`). -/
def OnAddressBarFocused (cfg : Config) (s : CState) : CState × List Note :=
  let s1 := { s with addressBarFocused := true }
  if cfg.showOnAddressBarFocus = true ∧ ¬ s1.mode = Mode.disabled then RevealUI s1
  else (s1, [])

/-- `OnAddressBarBlurred()` (local_model_classifier.cc:482-489): clears
the focus signal; schedules the auto-hide when the controller is
neither disabled nor pinned and `should_show_ui_` is false. -/
def OnAddressBarBlurred (s : CState) : CState × List Note :=
  let s1 := { s with addressBarFocused := false }
  if ¬ s1.mode = Mode.disabled ∧ ¬ s1.mode = Mode.pinned ∧ s1.shouldShowUi = false then
    HideUIAfterDelay s1
  else (s1, [])

/-- `OnKeyboardActivity()` (local_model_classifier.cc:491-495): reveals
exactly when `kShowOnKeyboardActivity` is set and the controller is not
disabled. -/
def OnKeyboardActivity (cfg : Config) (s : CState) : CState × List Note :=
  if cfg.showOnKeyboardActivity = true ∧ ¬ s.mode = Mode.disabled then RevealUI s
  else (s, [])

/-- `OnFullscreenStateChanged(is_fullscreen)` (local_model_classifier.
cc:497-507): entering fullscreen enables only when the persisted
`kImmersiveFullscreenEnabled` preference is set; leaving fullscreen
always disables. -/
def OnFullscreenStateChanged (cfg : Config) (s : CState) (active : Bool) :
    CState × List Note :=
  if active then
    if cfg.immersiveFullscreenEnabled then SetEnabled cfg s true else (s, [])
  else SetEnabled cfg s false

/-- `OnActiveTabChanged(web_contents)` (local_model_classifier.cc:
509-519): when not disabled, reveals, and — re-reading the state after
the reveal — schedules the auto-hide unless pinned. -/
def OnActiveTabChanged (s : CState) : CState × List Note :=
  if ¬ s.mode = Mode.disabled then
    let r := RevealUI s
    if ¬ r.1.mode = Mode.pinned then
      let r2 := HideUIAfterDelay r.1
      (r2.1, r.2 ++ r2.2)
    else r
  else (s, [])

/-- `OnAutoHideTimer()` (local_model_classifier.cc:639-641): calls
`HideUIImmediately()` unconditionally. -/
def OnAutoHideTimer (s : CState) : CState × List Note :=
  HideUIImmediately s

/-- `TriggerAutoHideTimerForTesting()` (local_model_classifier.cc:
546-548): invokes `OnAutoHideTimer()` directly, without touching the
timer. -/
def TriggerAutoHideTimerForTesting (s : CState) : CState × List Note :=
  OnAutoHideTimer s

/-- `OnAnimationProgressed(value)` (local_model_classifier.cc:697-707):
maps the driver's progress to a binary surface command with a one-half
threshold.  Progress is carried in hundredths (the machine only
compares it against `0.5`, so `value > 0.5` becomes `50 < p`). -/
def OnAnimationProgressed (s : CState) (p : Nat) : CState × List Note :=
  ({ s with surfacesVisible := decide (50 < p) }, [])

/-- `OnAnimationCompleted()` (local_model_classifier.cc:714-720):
resets the phase to `kNone` and commands the surfaces to the
authoritative visibility of the current state — visible exactly for
`kRevealed` and `kPinned`. -/
def OnAnimationCompleted (s : CState) : CState × List Note :=
  ({ s with anim := AnimPhase.idle, surfacesVisible := IsUIVisible s }, [])

/-- The public operations together with the timer expiry, the testing
trigger and the animation delegate callbacks, as one event alphabet for
reachability. -/
inductive Event where
  | setEnabledEv (turnOn : Bool)
  | revealEv
  | hideAfterDelayEv
  | hideImmediatelyEv
  | pinEv
  | unpinEv
  | pointerMoved (p : GfxPoint)
  | focusGained
  | focusLost
  | keyActivity
  | hostModeChanged (active : Bool)
  | contextChanged
  | timerFire
  | triggerAutoHide
  | animProgress (p : Nat)
  | animCompleted
deriving DecidableEq, Repr

/-- One step of the controller: dispatch an event to its operation.
The one-shot timer can only expire while pending (and is then spent
before its callback runs), and the animation delegate callbacks are
only delivered while the driver runs; `AnimationEnded` stops it. -/
def step (cfg : Config) (s : CState) (e : Event) : CState × List Note :=
  match e with
  | Event.setEnabledEv b => SetEnabled cfg s b
  | Event.revealEv => RevealUI s
  | Event.hideAfterDelayEv => HideUIAfterDelay s
  | Event.hideImmediatelyEv => HideUIImmediately s
  | Event.pinEv => PinUI s
  | Event.unpinEv => UnpinUI s
  | Event.pointerMoved p => OnMouseMoved cfg s p
  | Event.focusGained => OnAddressBarFocused cfg s
  | Event.focusLost => OnAddressBarBlurred s
  | Event.keyActivity => OnKeyboardActivity cfg s
  | Event.hostModeChanged active => OnFullscreenStateChanged cfg s active
  | Event.contextChanged => OnActiveTabChanged s
  | Event.timerFire =>
      if s.timerPending then OnAutoHideTimer { s with timerPending := false }
      else (s, [])
  | Event.triggerAutoHide => TriggerAutoHideTimerForTesting s
  | Event.animProgress p =>
      if s.animRunning then OnAnimationProgressed s p else (s, [])
  | Event.animCompleted =>
      if s.animRunning then OnAnimationCompleted { s with animRunning := false }
      else (s, [])

/-- States reachable from the fresh controller by any event sequence. -/
inductive Reachable (cfg : Config) : CState → Prop where
  | init : Reachable cfg initState
  | next : ∀ {s : CState} (e : Event), Reachable cfg s →
      Reachable cfg (step cfg s e).1

/-- Run a list of events, keeping only the state. -/
def runEvents (cfg : Config) (s : CState) : List Event → CState
  | [] => s
  | e :: es => runEvents cfg (step cfg s e).1 es

/-- Count the `modeToggled true` notifications in an emission list. -/
def countModeToggledTrue (ns : List Note) : Nat :=
  (ns.filter (fun n => decide (n = Note.modeToggled true))).length

/-- State of the JavaScript `ImmersiveFullscreenEventHandler`:
`isEnabled`, `isUIVisible`, `lastMousePosition.y`, the configured
`topEdgeSensitivity`, whether an `autoHideTimer` timeout is pending,
and the `document.activeElement` address-bar-focus query as a field. -/
structure JsState where
  isEnabled : Bool
  isUIVisible : Bool
  addressBarFocused : Bool
  lastMouseY : Int
  autoHideTimerPending : Bool
  topEdgeSensitivity : Int
deriving DecidableEq, Repr

/-- The constructor state of the JavaScript handler: disabled, UI
visible, sensitivity 5, no timer. -/
def jsInitState : JsState :=
  { isEnabled := false
    isUIVisible := true
    addressBarFocused := false
    lastMouseY := 0
    autoHideTimerPending := false
    topEdgeSensitivity := 5 }

/-- JavaScript `isMouseInTopEdge(mouseY)`:
`mouseY <= this.topEdgeSensitivity`. -/
def jsIsMouseInTopEdge (s : JsState) (mouseY : Int) : Bool :=
  mouseY ≤ s.topEdgeSensitivity

/-- JavaScript `cancelAutoHide()`: clear the pending timeout. -/
def jsCancelAutoHide (s : JsState) : JsState :=
  { s with autoHideTimerPending := false }

/-- JavaScript `scheduleAutoHide()`: cancel then set a fresh timeout. -/
def jsScheduleAutoHide (s : JsState) : JsState :=
  { jsCancelAutoHide s with autoHideTimerPending := true }

/-- JavaScript `revealUI(reason)`: early return unless enabled and
hidden; otherwise mark visible and cancel the auto-hide. -/
def jsRevealUI (s : JsState) : JsState :=
  if !s.isEnabled || s.isUIVisible then s
  else jsCancelAutoHide { s with isUIVisible := true }

/-- JavaScript `hideUI(reason)`: early return unless enabled and
visible; a further early return while the address bar is focused;
otherwise mark hidden. -/
def jsHideUI (s : JsState) : JsState :=
  if !s.isEnabled || !s.isUIVisible then s
  else if s.addressBarFocused then s
  else { s with isUIVisible := false }

/-- JavaScript `handleKeyDown(event)`: early return when disabled;
reveal exactly when a modifier is held or the key is F11, Escape or
Tab. -/
def jsHandleKeyDown (s : JsState) (ctrlKey metaKey altKey : Bool)
    (key : String) : JsState :=
  if !s.isEnabled then s
  else if ctrlKey || metaKey || altKey ||
      key == "F11" || key == "Escape" || key == "Tab" then jsRevealUI s
  else s

/-- JavaScript `handleMouseMove(event)`: early return when disabled;
record the position; reveal on entering the top edge while hidden,
schedule the auto-hide on being outside the edge while visible and
unfocused. -/
def jsHandleMouseMove (s : JsState) (y : Int) : JsState :=
  if !s.isEnabled then s
  else
    let s := { s with lastMouseY := y }
    if jsIsMouseInTopEdge s y && !s.isUIVisible then jsRevealUI s
    else if !(jsIsMouseInTopEdge s y) && s.isUIVisible && !s.addressBarFocused then
      jsScheduleAutoHide s
    else s

/-- JavaScript `handleWindowResize(event)`: early return when disabled;
otherwise reveal the UI and schedule the auto-hide. -/
def jsHandleWindowResize (s : JsState) : JsState :=
  if !s.isEnabled then s
  else jsScheduleAutoHide (jsRevealUI s)

/-- JavaScript `enableImmersiveMode()`: early return when already
enabled; mark enabled and hidden, then reveal when the address bar is
focused or the last mouse position is in the top edge. -/
def jsEnableImmersiveMode (s : JsState) : JsState :=
  if s.isEnabled then s
  else
    let s := { s with isEnabled := true, isUIVisible := false }
    if s.addressBarFocused || jsIsMouseInTopEdge s s.lastMouseY then jsRevealUI s
    else s

/-- JavaScript `disableImmersiveMode()`: early return when already
disabled; mark disabled and visible and cancel any pending timer. -/
def jsDisableImmersiveMode (s : JsState) : JsState :=
  if !s.isEnabled then s
  else jsCancelAutoHide { s with isEnabled := false, isUIVisible := true }

/-- The JavaScript auto-hide timeout firing: the timeout is spent and
`hideUI` runs. -/
def jsAutoHideTimerFire (s : JsState) : JsState :=
  if s.autoHideTimerPending then
    jsHideUI { s with autoHideTimerPending := false }
  else s
/-- The animation helpers only touch the animation fields. -/
theorem AnimateShowUI_fields (s : CState) :
    (AnimateShowUI s).mode = s.mode ∧ (AnimateShowUI s).timerPending = s.timerPending ∧
    (AnimateShowUI s).shouldShowUi = s.shouldShowUi ∧
    (AnimateShowUI s).addressBarFocused = s.addressBarFocused ∧
    (AnimateShowUI s).mouseInTopEdge = s.mouseInTopEdge ∧
    (AnimateShowUI s).surfacesVisible = s.surfacesVisible ∧
    (AnimateShowUI s).hasSeenIntroduction = s.hasSeenIntroduction := by
  simp only [AnimateShowUI]
  split_ifs <;> simp

@[simp] theorem AnimateShowUI_mode (s : CState) : (AnimateShowUI s).mode = s.mode :=
  (AnimateShowUI_fields s).1
@[simp] theorem AnimateShowUI_timer (s : CState) :
    (AnimateShowUI s).timerPending = s.timerPending := (AnimateShowUI_fields s).2.1
@[simp] theorem AnimateShowUI_ssu (s : CState) :
    (AnimateShowUI s).shouldShowUi = s.shouldShowUi := (AnimateShowUI_fields s).2.2.1
@[simp] theorem AnimateShowUI_abf (s : CState) :
    (AnimateShowUI s).addressBarFocused = s.addressBarFocused := (AnimateShowUI_fields s).2.2.2.1
@[simp] theorem AnimateShowUI_mte (s : CState) :
    (AnimateShowUI s).mouseInTopEdge = s.mouseInTopEdge := (AnimateShowUI_fields s).2.2.2.2.1
@[simp] theorem AnimateShowUI_sv (s : CState) :
    (AnimateShowUI s).surfacesVisible = s.surfacesVisible := (AnimateShowUI_fields s).2.2.2.2.2.1
@[simp] theorem AnimateShowUI_hsi (s : CState) :
    (AnimateShowUI s).hasSeenIntroduction = s.hasSeenIntroduction := (AnimateShowUI_fields s).2.2.2.2.2.2
@[simp] theorem AnimateShowUI_anim (s : CState) : (AnimateShowUI s).anim = AnimPhase.showing := by
  simp only [AnimateShowUI]
  split_ifs <;> simp_all

theorem AnimateHideUI_fields (s : CState) :
    (AnimateHideUI s).mode = s.mode ∧ (AnimateHideUI s).timerPending = s.timerPending ∧
    (AnimateHideUI s).shouldShowUi = s.shouldShowUi ∧
    (AnimateHideUI s).addressBarFocused = s.addressBarFocused ∧
    (AnimateHideUI s).mouseInTopEdge = s.mouseInTopEdge ∧
    (AnimateHideUI s).surfacesVisible = s.surfacesVisible ∧
    (AnimateHideUI s).hasSeenIntroduction = s.hasSeenIntroduction := by
  simp only [AnimateHideUI]
  split_ifs <;> simp

@[simp] theorem AnimateHideUI_mode (s : CState) : (AnimateHideUI s).mode = s.mode :=
  (AnimateHideUI_fields s).1
@[simp] theorem AnimateHideUI_timer (s : CState) :
    (AnimateHideUI s).timerPending = s.timerPending := (AnimateHideUI_fields s).2.1
@[simp] theorem AnimateHideUI_ssu (s : CState) :
    (AnimateHideUI s).shouldShowUi = s.shouldShowUi := (AnimateHideUI_fields s).2.2.1
@[simp] theorem AnimateHideUI_abf (s : CState) :
    (AnimateHideUI s).addressBarFocused = s.addressBarFocused := (AnimateHideUI_fields s).2.2.2.1
@[simp] theorem AnimateHideUI_mte (s : CState) :
    (AnimateHideUI s).mouseInTopEdge = s.mouseInTopEdge := (AnimateHideUI_fields s).2.2.2.2.1
@[simp] theorem AnimateHideUI_sv (s : CState) :
    (AnimateHideUI s).surfacesVisible = s.surfacesVisible := (AnimateHideUI_fields s).2.2.2.2.2.1
@[simp] theorem AnimateHideUI_hsi (s : CState) :
    (AnimateHideUI s).hasSeenIntroduction = s.hasSeenIntroduction := (AnimateHideUI_fields s).2.2.2.2.2.2
@[simp] theorem AnimateHideUI_anim (s : CState) : (AnimateHideUI s).anim = AnimPhase.hiding := by
  simp only [AnimateHideUI]
  split_ifs <;> simp_all

theorem CompleteAnimation_fields (s : CState) :
    (CompleteAnimation s).mode = s.mode ∧ (CompleteAnimation s).timerPending = s.timerPending ∧
    (CompleteAnimation s).shouldShowUi = s.shouldShowUi ∧
    (CompleteAnimation s).addressBarFocused = s.addressBarFocused ∧
    (CompleteAnimation s).mouseInTopEdge = s.mouseInTopEdge ∧
    (CompleteAnimation s).surfacesVisible = s.surfacesVisible ∧
    (CompleteAnimation s).hasSeenIntroduction = s.hasSeenIntroduction := by
  simp only [CompleteAnimation]
  split_ifs <;> simp

@[simp] theorem CompleteAnimation_mode (s : CState) : (CompleteAnimation s).mode = s.mode :=
  (CompleteAnimation_fields s).1
@[simp] theorem CompleteAnimation_timer (s : CState) :
    (CompleteAnimation s).timerPending = s.timerPending := (CompleteAnimation_fields s).2.1
@[simp] theorem CompleteAnimation_sv (s : CState) :
    (CompleteAnimation s).surfacesVisible = s.surfacesVisible := (CompleteAnimation_fields s).2.2.2.2.2.1
@[simp] theorem CompleteAnimation_anim (s : CState) :
    (CompleteAnimation s).anim = AnimPhase.idle := by
  simp only [CompleteAnimation]
  split_ifs <;> simp_all

@[simp] theorem CompleteAnimation_running (s : CState) :
    (CompleteAnimation s).animRunning
      = (if s.anim = AnimPhase.idle then s.animRunning else false) := by
  simp only [CompleteAnimation]
  split_ifs <;> simp_all

/-! ## Transfer lemmas: each operation preserves "pinned has no pending timer" -/

theorem SetEnabled_pinNoTimer (cfg : Config) (s : CState) (b : Bool)
    (ih : s.mode = Mode.pinned → s.timerPending = false) :
    (SetEnabled cfg s b).1.mode = Mode.pinned → (SetEnabled cfg s b).1.timerPending = false := by
  simp only [SetEnabled, RevealUI, ScheduleAutoHide, CancelAutoHide, SetAllUIElementsVisible,
    IsEnabled, ShouldDisableImmersiveMode, IsUIVisible]
  split_ifs <;> simp_all

theorem RevealUI_pinNoTimer (s : CState) :
    (RevealUI s).1.mode = Mode.pinned → (RevealUI s).1.timerPending = false := by
  simp only [RevealUI, CancelAutoHide, IsUIVisible]
  split_ifs <;> simp_all

theorem HideUIAfterDelay_pinNoTimer (s : CState)
    (ih : s.mode = Mode.pinned → s.timerPending = false) :
    (HideUIAfterDelay s).1.mode = Mode.pinned →
      (HideUIAfterDelay s).1.timerPending = false := by
  simp only [HideUIAfterDelay, ScheduleAutoHide]
  split_ifs <;> simp_all

theorem HideUIImmediately_pinNoTimer (s : CState)
    (ih : s.mode = Mode.pinned → s.timerPending = false) :
    (HideUIImmediately s).1.mode = Mode.pinned →
      (HideUIImmediately s).1.timerPending = false := by
  simp only [HideUIImmediately, CancelAutoHide, IsUIVisible]
  split_ifs <;> simp_all

theorem PinUI_pinNoTimer (s : CState) :
    (PinUI s).1.mode = Mode.pinned → (PinUI s).1.timerPending = false := by
  simp only [PinUI, CancelAutoHide, IsUIVisible]
  split_ifs <;> simp_all

theorem UnpinUI_pinNoTimer (s : CState)
    (ih : s.mode = Mode.pinned → s.timerPending = false) :
    (UnpinUI s).1.mode = Mode.pinned → (UnpinUI s).1.timerPending = false := by
  simp only [UnpinUI, HideUIAfterDelay, ScheduleAutoHide]
  split_ifs <;> simp_all

theorem OnMouseMoved_pinNoTimer (cfg : Config) (s : CState) (p : GfxPoint)
    (ih : s.mode = Mode.pinned → s.timerPending = false) :
    (OnMouseMoved cfg s p).1.mode = Mode.pinned →
      (OnMouseMoved cfg s p).1.timerPending = false := by
  simp only [OnMouseMoved, RevealUI, HideUIAfterDelay, ScheduleAutoHide, CancelAutoHide,
    IsUIVisible]
  split_ifs <;> simp_all

theorem OnAddressBarFocused_pinNoTimer (cfg : Config) (s : CState)
    (ih : s.mode = Mode.pinned → s.timerPending = false) :
    (OnAddressBarFocused cfg s).1.mode = Mode.pinned →
      (OnAddressBarFocused cfg s).1.timerPending = false := by
  simp only [OnAddressBarFocused, RevealUI, CancelAutoHide, IsUIVisible]
  split_ifs <;> simp_all

theorem OnAddressBarBlurred_pinNoTimer (s : CState)
    (ih : s.mode = Mode.pinned → s.timerPending = false) :
    (OnAddressBarBlurred s).1.mode = Mode.pinned →
      (OnAddressBarBlurred s).1.timerPending = false := by
  simp only [OnAddressBarBlurred, HideUIAfterDelay, ScheduleAutoHide]
  split_ifs <;> simp_all

theorem OnKeyboardActivity_pinNoTimer (cfg : Config) (s : CState)
    (ih : s.mode = Mode.pinned → s.timerPending = false) :
    (OnKeyboardActivity cfg s).1.mode = Mode.pinned →
      (OnKeyboardActivity cfg s).1.timerPending = false := by
  simp only [OnKeyboardActivity]
  split_ifs with h
  · exact RevealUI_pinNoTimer s
  · exact ih

theorem OnFullscreenStateChanged_pinNoTimer (cfg : Config) (s : CState) (active : Bool)
    (ih : s.mode = Mode.pinned → s.timerPending = false) :
    (OnFullscreenStateChanged cfg s active).1.mode = Mode.pinned →
      (OnFullscreenStateChanged cfg s active).1.timerPending = false := by
  simp only [OnFullscreenStateChanged]
  split_ifs <;> first | exact SetEnabled_pinNoTimer cfg s _ ih | exact ih

theorem OnActiveTabChanged_pinNoTimer (s : CState) :
    (OnActiveTabChanged s).1.mode = Mode.pinned →
      (OnActiveTabChanged s).1.timerPending = false := by
  simp only [OnActiveTabChanged, RevealUI, HideUIAfterDelay, ScheduleAutoHide,
    CancelAutoHide, IsUIVisible]
  split_ifs <;> simp_all

set_option maxRecDepth 4000 in
/-- Preservation lemma: every single event keeps the property that a
pinned controller has no pending auto-hide timer. -/
theorem step_keeps_pinned_timer_clear (cfg : Config) (s : CState) (e : Event)
    (ih : s.mode = Mode.pinned → s.timerPending = false) :
    (step cfg s e).1.mode = Mode.pinned → (step cfg s e).1.timerPending = false := by
  cases e with
  | setEnabledEv b => exact SetEnabled_pinNoTimer cfg s b ih
  | revealEv => exact RevealUI_pinNoTimer s
  | hideAfterDelayEv => exact HideUIAfterDelay_pinNoTimer s ih
  | hideImmediatelyEv => exact HideUIImmediately_pinNoTimer s ih
  | pinEv => exact PinUI_pinNoTimer s
  | unpinEv => exact UnpinUI_pinNoTimer s ih
  | pointerMoved p => exact OnMouseMoved_pinNoTimer cfg s p ih
  | focusGained => exact OnAddressBarFocused_pinNoTimer cfg s ih
  | focusLost => exact OnAddressBarBlurred_pinNoTimer s ih
  | keyActivity => exact OnKeyboardActivity_pinNoTimer cfg s ih
  | hostModeChanged active => exact OnFullscreenStateChanged_pinNoTimer cfg s active ih
  | contextChanged => exact OnActiveTabChanged_pinNoTimer s
  | timerFire =>
      simp only [step, OnAutoHideTimer]
      split_ifs with h
      · exact HideUIImmediately_pinNoTimer { s with timerPending := false } (fun _ => rfl)
      · exact ih
  | triggerAutoHide => exact HideUIImmediately_pinNoTimer s ih
  | animProgress p =>
      simp only [step, OnAnimationProgressed]
      split_ifs <;> simp_all
  | animCompleted =>
      simp only [step, OnAnimationCompleted]
      split_ifs <;> simp_all

/-! ## Transfer lemmas: each operation preserves the disabled-state invariant
(together with its companion "an idle animation phase means the driver is
stopped", which the `CompleteAnimation` no-op branch needs). -/

theorem SetEnabled_dinv (cfg : Config) (s : CState) (b : Bool)
    (ih1 : s.anim = AnimPhase.idle → s.animRunning = false)
    (ih2 : s.mode = Mode.disabled →
      s.timerPending = false ∧ s.anim = AnimPhase.idle ∧ s.surfacesVisible = true) :
    ((SetEnabled cfg s b).1.anim = AnimPhase.idle → (SetEnabled cfg s b).1.animRunning = false) ∧
      ((SetEnabled cfg s b).1.mode = Mode.disabled →
        (SetEnabled cfg s b).1.timerPending = false ∧
          (SetEnabled cfg s b).1.anim = AnimPhase.idle ∧
          (SetEnabled cfg s b).1.surfacesVisible = true) := by
  simp only [SetEnabled, RevealUI, ScheduleAutoHide, CancelAutoHide, SetAllUIElementsVisible,
    IsEnabled, ShouldDisableImmersiveMode, IsUIVisible]
  split_ifs <;> simp_all

theorem RevealUI_dinv (s : CState)
    (ih1 : s.anim = AnimPhase.idle → s.animRunning = false)
    (ih2 : s.mode = Mode.disabled →
      s.timerPending = false ∧ s.anim = AnimPhase.idle ∧ s.surfacesVisible = true) :
    ((RevealUI s).1.anim = AnimPhase.idle → (RevealUI s).1.animRunning = false) ∧
      ((RevealUI s).1.mode = Mode.disabled →
        (RevealUI s).1.timerPending = false ∧ (RevealUI s).1.anim = AnimPhase.idle ∧
          (RevealUI s).1.surfacesVisible = true) := by
  simp only [RevealUI, CancelAutoHide, IsUIVisible]
  split_ifs <;> simp_all

theorem HideUIAfterDelay_dinv (s : CState)
    (ih1 : s.anim = AnimPhase.idle → s.animRunning = false)
    (ih2 : s.mode = Mode.disabled →
      s.timerPending = false ∧ s.anim = AnimPhase.idle ∧ s.surfacesVisible = true) :
    ((HideUIAfterDelay s).1.anim = AnimPhase.idle → (HideUIAfterDelay s).1.animRunning = false) ∧
      ((HideUIAfterDelay s).1.mode = Mode.disabled →
        (HideUIAfterDelay s).1.timerPending = false ∧
          (HideUIAfterDelay s).1.anim = AnimPhase.idle ∧
          (HideUIAfterDelay s).1.surfacesVisible = true) := by
  simp only [HideUIAfterDelay, ScheduleAutoHide]
  split_ifs <;> simp_all

theorem HideUIImmediately_dinv (s : CState)
    (ih1 : s.anim = AnimPhase.idle → s.animRunning = false)
    (ih2 : s.mode = Mode.disabled →
      s.timerPending = false ∧ s.anim = AnimPhase.idle ∧ s.surfacesVisible = true) :
    ((HideUIImmediately s).1.anim = AnimPhase.idle →
        (HideUIImmediately s).1.animRunning = false) ∧
      ((HideUIImmediately s).1.mode = Mode.disabled →
        (HideUIImmediately s).1.timerPending = false ∧
          (HideUIImmediately s).1.anim = AnimPhase.idle ∧
          (HideUIImmediately s).1.surfacesVisible = true) := by
  simp only [HideUIImmediately, CancelAutoHide, IsUIVisible]
  split_ifs <;> simp_all

theorem PinUI_dinv (s : CState)
    (ih1 : s.anim = AnimPhase.idle → s.animRunning = false)
    (ih2 : s.mode = Mode.disabled →
      s.timerPending = false ∧ s.anim = AnimPhase.idle ∧ s.surfacesVisible = true) :
    ((PinUI s).1.anim = AnimPhase.idle → (PinUI s).1.animRunning = false) ∧
      ((PinUI s).1.mode = Mode.disabled →
        (PinUI s).1.timerPending = false ∧ (PinUI s).1.anim = AnimPhase.idle ∧
          (PinUI s).1.surfacesVisible = true) := by
  simp only [PinUI, CancelAutoHide, IsUIVisible]
  split_ifs <;> simp_all

theorem UnpinUI_dinv (s : CState)
    (ih1 : s.anim = AnimPhase.idle → s.animRunning = false)
    (ih2 : s.mode = Mode.disabled →
      s.timerPending = false ∧ s.anim = AnimPhase.idle ∧ s.surfacesVisible = true) :
    ((UnpinUI s).1.anim = AnimPhase.idle → (UnpinUI s).1.animRunning = false) ∧
      ((UnpinUI s).1.mode = Mode.disabled →
        (UnpinUI s).1.timerPending = false ∧ (UnpinUI s).1.anim = AnimPhase.idle ∧
          (UnpinUI s).1.surfacesVisible = true) := by
  simp only [UnpinUI, HideUIAfterDelay, ScheduleAutoHide]
  split_ifs <;> simp_all

theorem OnMouseMoved_dinv (cfg : Config) (s : CState) (p : GfxPoint)
    (ih1 : s.anim = AnimPhase.idle → s.animRunning = false)
    (ih2 : s.mode = Mode.disabled →
      s.timerPending = false ∧ s.anim = AnimPhase.idle ∧ s.surfacesVisible = true) :
    ((OnMouseMoved cfg s p).1.anim = AnimPhase.idle →
        (OnMouseMoved cfg s p).1.animRunning = false) ∧
      ((OnMouseMoved cfg s p).1.mode = Mode.disabled →
        (OnMouseMoved cfg s p).1.timerPending = false ∧
          (OnMouseMoved cfg s p).1.anim = AnimPhase.idle ∧
          (OnMouseMoved cfg s p).1.surfacesVisible = true) := by
  simp only [OnMouseMoved, RevealUI, HideUIAfterDelay, ScheduleAutoHide, CancelAutoHide,
    IsUIVisible]
  split_ifs <;> simp_all

theorem OnAddressBarFocused_dinv (cfg : Config) (s : CState)
    (ih1 : s.anim = AnimPhase.idle → s.animRunning = false)
    (ih2 : s.mode = Mode.disabled →
      s.timerPending = false ∧ s.anim = AnimPhase.idle ∧ s.surfacesVisible = true) :
    ((OnAddressBarFocused cfg s).1.anim = AnimPhase.idle →
        (OnAddressBarFocused cfg s).1.animRunning = false) ∧
      ((OnAddressBarFocused cfg s).1.mode = Mode.disabled →
        (OnAddressBarFocused cfg s).1.timerPending = false ∧
          (OnAddressBarFocused cfg s).1.anim = AnimPhase.idle ∧
          (OnAddressBarFocused cfg s).1.surfacesVisible = true) := by
  simp only [OnAddressBarFocused, RevealUI, CancelAutoHide, IsUIVisible]
  split_ifs <;> simp_all

theorem OnAddressBarBlurred_dinv (s : CState)
    (ih1 : s.anim = AnimPhase.idle → s.animRunning = false)
    (ih2 : s.mode = Mode.disabled →
      s.timerPending = false ∧ s.anim = AnimPhase.idle ∧ s.surfacesVisible = true) :
    ((OnAddressBarBlurred s).1.anim = AnimPhase.idle →
        (OnAddressBarBlurred s).1.animRunning = false) ∧
      ((OnAddressBarBlurred s).1.mode = Mode.disabled →
        (OnAddressBarBlurred s).1.timerPending = false ∧
          (OnAddressBarBlurred s).1.anim = AnimPhase.idle ∧
          (OnAddressBarBlurred s).1.surfacesVisible = true) := by
  simp only [OnAddressBarBlurred, HideUIAfterDelay, ScheduleAutoHide]
  split_ifs <;> simp_all

theorem OnKeyboardActivity_dinv (cfg : Config) (s : CState)
    (ih1 : s.anim = AnimPhase.idle → s.animRunning = false)
    (ih2 : s.mode = Mode.disabled →
      s.timerPending = false ∧ s.anim = AnimPhase.idle ∧ s.surfacesVisible = true) :
    ((OnKeyboardActivity cfg s).1.anim = AnimPhase.idle →
        (OnKeyboardActivity cfg s).1.animRunning = false) ∧
      ((OnKeyboardActivity cfg s).1.mode = Mode.disabled →
        (OnKeyboardActivity cfg s).1.timerPending = false ∧
          (OnKeyboardActivity cfg s).1.anim = AnimPhase.idle ∧
          (OnKeyboardActivity cfg s).1.surfacesVisible = true) := by
  simp only [OnKeyboardActivity]
  split_ifs with h
  · exact RevealUI_dinv s ih1 ih2
  · exact ⟨ih1, ih2⟩

theorem OnFullscreenStateChanged_dinv (cfg : Config) (s : CState) (active : Bool)
    (ih1 : s.anim = AnimPhase.idle → s.animRunning = false)
    (ih2 : s.mode = Mode.disabled →
      s.timerPending = false ∧ s.anim = AnimPhase.idle ∧ s.surfacesVisible = true) :
    ((OnFullscreenStateChanged cfg s active).1.anim = AnimPhase.idle →
        (OnFullscreenStateChanged cfg s active).1.animRunning = false) ∧
      ((OnFullscreenStateChanged cfg s active).1.mode = Mode.disabled →
        (OnFullscreenStateChanged cfg s active).1.timerPending = false ∧
          (OnFullscreenStateChanged cfg s active).1.anim = AnimPhase.idle ∧
          (OnFullscreenStateChanged cfg s active).1.surfacesVisible = true) := by
  simp only [OnFullscreenStateChanged]
  split_ifs <;> first | exact SetEnabled_dinv cfg s _ ih1 ih2 | exact ⟨ih1, ih2⟩

theorem OnActiveTabChanged_dinv (s : CState)
    (ih1 : s.anim = AnimPhase.idle → s.animRunning = false)
    (ih2 : s.mode = Mode.disabled →
      s.timerPending = false ∧ s.anim = AnimPhase.idle ∧ s.surfacesVisible = true) :
    ((OnActiveTabChanged s).1.anim = AnimPhase.idle →
        (OnActiveTabChanged s).1.animRunning = false) ∧
      ((OnActiveTabChanged s).1.mode = Mode.disabled →
        (OnActiveTabChanged s).1.timerPending = false ∧
          (OnActiveTabChanged s).1.anim = AnimPhase.idle ∧
          (OnActiveTabChanged s).1.surfacesVisible = true) := by
  simp only [OnActiveTabChanged, RevealUI, HideUIAfterDelay, ScheduleAutoHide,
    CancelAutoHide, IsUIVisible]
  split_ifs <;> simp_all

set_option maxRecDepth 4000 in
/-- Preservation lemma: every single event keeps the property that a
disabled controller has no pending timer, an idle animation phase and
all surfaces commanded visible (with the companion fact that an idle
phase means the animation driver is stopped). -/
theorem step_keeps_disabled_inv (cfg : Config) (s : CState) (e : Event)
    (ih1 : s.anim = AnimPhase.idle → s.animRunning = false)
    (ih2 : s.mode = Mode.disabled →
      s.timerPending = false ∧ s.anim = AnimPhase.idle ∧ s.surfacesVisible = true) :
    ((step cfg s e).1.anim = AnimPhase.idle → (step cfg s e).1.animRunning = false) ∧
      ((step cfg s e).1.mode = Mode.disabled →
        (step cfg s e).1.timerPending = false ∧ (step cfg s e).1.anim = AnimPhase.idle ∧
          (step cfg s e).1.surfacesVisible = true) := by
  cases e with
  | setEnabledEv b => exact SetEnabled_dinv cfg s b ih1 ih2
  | revealEv => exact RevealUI_dinv s ih1 ih2
  | hideAfterDelayEv => exact HideUIAfterDelay_dinv s ih1 ih2
  | hideImmediatelyEv => exact HideUIImmediately_dinv s ih1 ih2
  | pinEv => exact PinUI_dinv s ih1 ih2
  | unpinEv => exact UnpinUI_dinv s ih1 ih2
  | pointerMoved p => exact OnMouseMoved_dinv cfg s p ih1 ih2
  | focusGained => exact OnAddressBarFocused_dinv cfg s ih1 ih2
  | focusLost => exact OnAddressBarBlurred_dinv s ih1 ih2
  | keyActivity => exact OnKeyboardActivity_dinv cfg s ih1 ih2
  | hostModeChanged active => exact OnFullscreenStateChanged_dinv cfg s active ih1 ih2
  | contextChanged => exact OnActiveTabChanged_dinv s ih1 ih2
  | timerFire =>
      simp only [step, OnAutoHideTimer]
      split_ifs with h
      · exact HideUIImmediately_dinv { s with timerPending := false } ih1
          (fun hd => ⟨rfl, (ih2 hd).2.1, (ih2 hd).2.2⟩)
      · exact ⟨ih1, ih2⟩
  | triggerAutoHide => exact HideUIImmediately_dinv s ih1 ih2
  | animProgress p =>
      simp only [step, OnAnimationProgressed]
      split_ifs with h
      · refine ⟨fun hidle => ih1 hidle, fun hd => absurd h ?_⟩
        simp [ih1 (ih2 hd).2.1]
      · exact ⟨ih1, ih2⟩
  | animCompleted =>
      simp only [step, OnAnimationCompleted]
      split_ifs with h
      · refine ⟨fun _ => rfl, fun hd => absurd h ?_⟩
        simp [ih1 (ih2 hd).2.1]
      · exact ⟨ih1, ih2⟩

/-- Running any event list from a reachable state stays reachable. -/
theorem reachable_runEvents (cfg : Config) :
    ∀ (es : List Event) (s : CState), Reachable cfg s →
      Reachable cfg (runEvents cfg s es) := by
  intro es
  induction es with
  | nil => intro s h; exact h
  | cons e es ih => intro s h; exact ih ((step cfg s e).1) (Reachable.next e h)

/-- The state of the scenario of unit test
`KeepUIVisibleWhileAddressBarFocused`: enable, then focus the address
bar — the controller is revealed with the address bar focused. -/
def focusedRevealedState : CState :=
  (OnAddressBarFocused defaultConfig (SetEnabled defaultConfig initState true).1).1

/-- A reachable pinned state: enable, then pin. -/
def pinnedState : CState :=
  (PinUI (SetEnabled defaultConfig initState true).1).1

/-! ## Claims -/

/-- Claim C1: `HideUIImmediately()` is a no-op exactly in the
`kDisabled` and `kPinned` states; from every other state it cancels the
pending auto-hide timer, starts the hide animation, and sets `Mode =
kEnabled`, so the UI is no longer reported visible.  (The code has no
address-bar-focus guard here.) -/
theorem hideImmediately_spec :
    (∀ s : CState, ¬ s.mode = Mode.disabled → ¬ s.mode = Mode.pinned →
      (HideUIImmediately s).1.mode = Mode.enabled ∧
        (HideUIImmediately s).1.timerPending = false ∧
        (HideUIImmediately s).1.anim = AnimPhase.hiding ∧
        IsUIVisible (HideUIImmediately s).1 = false) ∧
    (∀ s : CState, s.mode = Mode.disabled ∨ s.mode = Mode.pinned →
      HideUIImmediately s = (s, [])) := by
  constructor
  · intro s h1 h2
    simp only [HideUIImmediately, CancelAutoHide, IsUIVisible]
    split_ifs <;> simp_all
  · intro s h
    simp only [HideUIImmediately]
    rw [if_pos h]

/-- Claim C1 (witness): at the concrete revealed-while-focused state of
unit test `KeepUIVisibleWhileAddressBarFocused` the call hides and
transitions to `kEnabled` (the focus does not block it), and at a
concrete pinned state it is a no-op. -/
theorem hideImmediately_spec_witness :
    (HideUIImmediately focusedRevealedState).1.mode = Mode.enabled ∧
    HideUIImmediately pinnedState = (pinnedState, []) :=
  ⟨(hideImmediately_spec.1 focusedRevealedState (by decide) (by decide)).1,
   hideImmediately_spec.2 pinnedState (by decide)⟩

/-- Claim C2: with the default sensitivity of 5 and the test-fixture
bounds, the controller's `IsMouseInTopEdge` (pinned down by unit test
`MouseAtExactBoundary`, which the found C++ implementation — y strictly
below `bounds.y() + sensitivity` — satisfies) classifies y = 5 as not
hovering and y = 4 as hovering, but the repository's JavaScript
`isMouseInTopEdge` uses `mouseY <= topEdgeSensitivity` and therefore
classifies y = 5 — the exact boundary — as hovering, contradicting the
repository's own unit test. -/
theorem topEdge_boundary_bug :
    IsMouseInTopEdge defaultConfig ⟨600, 5⟩ = false ∧
    IsMouseInTopEdge defaultConfig ⟨600, 4⟩ = true ∧
    IsUIVisible (OnMouseMoved defaultConfig
      (SetEnabled defaultConfig initState true).1 ⟨600, 5⟩).1 = false ∧
    IsUIVisible (OnMouseMoved defaultConfig
      (SetEnabled defaultConfig initState true).1 ⟨600, 4⟩).1 = true ∧
    jsInitState.topEdgeSensitivity = 5 ∧
    jsIsMouseInTopEdge jsInitState 5 = true := by
  decide

/-- Claim C3 (counterexample): with the keyboard-activity preference at
its default `false`, the JavaScript key handler still reveals the UI
for a key event with the Ctrl modifier held in an enabled, hidden
state — refuting "when the flag is false, no key event of any kind
(including modifier or shortcut keys) changes visibility or state". -/
theorem keyActivity_modifier_counterexample :
    defaultConfig.showOnKeyboardActivity = false ∧
    ({ jsInitState with isEnabled := true, isUIVisible := false } : JsState).isUIVisible = false ∧
    (jsHandleKeyDown { jsInitState with isEnabled := true, isUIVisible := false }
      true false false "a").isUIVisible = true := by
  decide

/-- Claim C3 (amended): the controller's `OnKeyboardActivity()` is a
no-op whenever `kShowOnKeyboardActivity` is false, and with the flag
set it calls `RevealUI()` from every enabled state; the JavaScript key
handler, however, reveals on modifier/shortcut keys (Ctrl, Meta, Alt,
F11, Escape, Tab) regardless of that flag, and only key events outside
that set leave its state unchanged. -/
theorem keyActivity_amended :
    (∀ (cfg : Config) (s : CState), cfg.showOnKeyboardActivity = false →
      OnKeyboardActivity cfg s = (s, [])) ∧
    (∀ (cfg : Config) (s : CState), cfg.showOnKeyboardActivity = true →
      ¬ s.mode = Mode.disabled → OnKeyboardActivity cfg s = RevealUI s) ∧
    (∀ (s : JsState) (c m a : Bool) (k : String),
      (c || m || a || k == "F11" || k == "Escape" || k == "Tab") = false →
      jsHandleKeyDown s c m a k = s) := by
  refine ⟨?_, ?_, ?_⟩
  · intro cfg s h
    simp only [OnKeyboardActivity]
    split_ifs <;> simp_all
  · intro cfg s h1 h2
    simp only [OnKeyboardActivity]
    split_ifs <;> simp_all
  · intro s c m a k h
    simp only [jsHandleKeyDown]
    split_ifs <;> simp_all

/-- Claim C3 (witness): the amended theorem at concrete inputs — flag
off is a no-op, flag on reveals from the enabled state, and a plain key
without modifiers leaves the JavaScript handler unchanged. -/
theorem keyActivity_amended_witness :
    OnKeyboardActivity defaultConfig initState = (initState, []) ∧
    OnKeyboardActivity { defaultConfig with showOnKeyboardActivity := true }
        (SetEnabled defaultConfig initState true).1
      = RevealUI (SetEnabled defaultConfig initState true).1 ∧
    jsHandleKeyDown jsInitState false false false "a" = jsInitState :=
  ⟨keyActivity_amended.1 defaultConfig initState rfl,
   keyActivity_amended.2.1 _ _ rfl (by decide),
   keyActivity_amended.2.2 jsInitState false false false "a" (by decide)⟩

/-- Claim C4: when the legacy-suppression flag
(`kRespectLegacyFullscreenPref`) is set and the external legacy
always-show-toolbar condition holds, `SetEnabled(true)` returns the
state unchanged and emits no observer notification, from every state. -/
theorem setEnabled_legacySuppressed (cfg : Config) (s : CState)
    (h1 : cfg.respectLegacyFullscreenPref = true)
    (h2 : cfg.legacyAlwaysShowToolbar = true) :
    SetEnabled cfg s true = (s, []) := by
  simp only [SetEnabled, IsEnabled, ShouldDisableImmersiveMode]
  split_ifs <;> simp_all

/-- Claim C4 (witness): with the legacy condition on, enabling from the
fresh (disabled) state changes nothing — the scenario of unit test
`RespectLegacyFullscreenPreference`. -/
theorem setEnabled_legacySuppressed_witness :
    SetEnabled { defaultConfig with legacyAlwaysShowToolbar := true } initState true
      = (initState, []) :=
  setEnabled_legacySuppressed _ initState rfl rfl

/-- Claim C5: in every state reachable by any sequence of operations,
timer expiries, the testing trigger and animation callbacks, `Mode =
kPinned` implies no auto-hide timer is pending. -/
theorem pinned_implies_no_timer (cfg : Config) (s : CState)
    (h : Reachable cfg s) : s.mode = Mode.pinned → s.timerPending = false := by
  induction h with
  | init => intro hp; simp [initState] at hp
  | next e hr ih => exact step_keeps_pinned_timer_clear cfg _ e ih

/-- Claim C5 (witness): the concrete reachable pinned state after
`SetEnabled(true); PinUI()` has no pending timer. -/
theorem pinned_implies_no_timer_witness :
    (runEvents defaultConfig initState [Event.setEnabledEv true, Event.pinEv]).timerPending
      = false :=
  pinned_implies_no_timer defaultConfig _
    (reachable_runEvents defaultConfig [Event.setEnabledEv true, Event.pinEv] initState
      Reachable.init)
    (by decide)

/-- Claim C6 (counterexample): the reachable state reached by
`SetEnabled(true)`, `PinUI()`, animation completion has no pending
timer, an idle animation phase and all surfaces commanded visible, yet
its mode is `kPinned`, not `kDisabled` — refuting the claimed
equivalence (its right-to-left direction). -/
theorem disabled_iff_counterexample :
    Reachable defaultConfig (runEvents defaultConfig initState
      [Event.setEnabledEv true, Event.pinEv, Event.animCompleted]) ∧
    (runEvents defaultConfig initState
      [Event.setEnabledEv true, Event.pinEv, Event.animCompleted]).timerPending = false ∧
    (runEvents defaultConfig initState
      [Event.setEnabledEv true, Event.pinEv, Event.animCompleted]).anim = AnimPhase.idle ∧
    (runEvents defaultConfig initState
      [Event.setEnabledEv true, Event.pinEv, Event.animCompleted]).surfacesVisible = true ∧
    ¬ (runEvents defaultConfig initState
      [Event.setEnabledEv true, Event.pinEv, Event.animCompleted]).mode = Mode.disabled :=
  ⟨reachable_runEvents defaultConfig _ initState Reachable.init,
   by decide, by decide, by decide, by decide⟩

/-- Claim C6 (amended): in every reachable state `Mode = kDisabled`
implies no pending timer, an idle animation phase and all surfaces
commanded visible (the converse does not hold); and from every
non-disabled state `SetEnabled(false)` transitions to `kDisabled`,
cancels the timer, force-completes the animation and commands all
surfaces visible before returning. -/
theorem disabled_invariant_amended :
    (∀ (cfg : Config) (s : CState), Reachable cfg s → s.mode = Mode.disabled →
      s.timerPending = false ∧ s.anim = AnimPhase.idle ∧ s.surfacesVisible = true) ∧
    (∀ (cfg : Config) (s : CState), ¬ s.mode = Mode.disabled →
      (SetEnabled cfg s false).1.mode = Mode.disabled ∧
        (SetEnabled cfg s false).1.timerPending = false ∧
        (SetEnabled cfg s false).1.anim = AnimPhase.idle ∧
        (SetEnabled cfg s false).1.surfacesVisible = true) := by
  constructor
  · intro cfg s h
    have key : (s.anim = AnimPhase.idle → s.animRunning = false) ∧
        (s.mode = Mode.disabled →
          s.timerPending = false ∧ s.anim = AnimPhase.idle ∧ s.surfacesVisible = true) := by
      induction h with
      | init => exact ⟨fun _ => rfl, fun _ => ⟨rfl, rfl, rfl⟩⟩
      | next e hr ih => exact step_keeps_disabled_inv cfg _ e ih.1 ih.2
    exact key.2
  · intro cfg s hs
    simp only [SetEnabled, IsEnabled, SetAllUIElementsVisible, CancelAutoHide]
    split_ifs <;> simp_all

/-- Claim C6 (witness): the invariant at the fresh state, and the
disable effects at the concrete enabled state. -/
theorem disabled_invariant_amended_witness :
    (initState.timerPending = false ∧ initState.anim = AnimPhase.idle ∧
      initState.surfacesVisible = true) ∧
    (SetEnabled defaultConfig (SetEnabled defaultConfig initState true).1 false).1.anim
      = AnimPhase.idle :=
  ⟨disabled_invariant_amended.1 defaultConfig initState Reachable.init rfl,
   (disabled_invariant_amended.2 defaultConfig (SetEnabled defaultConfig initState true).1
      (by decide)).2.2.1⟩

/-- Claim C7: from any state with `Mode = kEnabled` where the pointer
was not in the hover zone (neither `mouse_in_top_edge_` nor
`should_show_ui_` is set), a mouse move into the hover zone emits
exactly `OnMouseHoverStateChanged(true)` followed by
`OnImmersiveUIVisibilityChanged(true)` — each exactly once and in that
order. -/
theorem hover_reveal_ordering (cfg : Config) (s : CState) (p : GfxPoint)
    (hm : s.mode = Mode.enabled) (he : s.mouseInTopEdge = false)
    (hs : s.shouldShowUi = false) (hy : IsMouseInTopEdge cfg p = true) :
    (OnMouseMoved cfg s p).2 = [Note.hoverChanged true, Note.visibilityChanged true] := by
  simp only [OnMouseMoved, RevealUI, CancelAutoHide, IsUIVisible]
  split_ifs <;> simp_all

/-- Claim C7 (witness): the concrete enabled state moved to (600, 2)
emits the hover notification then the visibility notification. -/
theorem hover_reveal_ordering_witness :
    (OnMouseMoved defaultConfig (SetEnabled defaultConfig initState true).1 ⟨600, 2⟩).2
      = [Note.hoverChanged true, Note.visibilityChanged true] :=
  hover_reveal_ordering defaultConfig (SetEnabled defaultConfig initState true).1 ⟨600, 2⟩
    (by decide) (by decide) (by decide) (by decide)

/-- Claim C8 (counterexample): from the already-enabled state (itself
reached by one `SetEnabled(true)` from the fresh state), calling
`SetEnabled(true)` twice in a row produces zero `OnImmersiveModeToggled
(true)` notifications, not exactly one — refuting the claim for
arbitrary starting states. -/
theorem setEnabledTwice_counterexample :
    ¬ countModeToggledTrue
        ((SetEnabled defaultConfig (SetEnabled defaultConfig initState true).1 true).2 ++
          (SetEnabled defaultConfig
            (SetEnabled defaultConfig (SetEnabled defaultConfig initState true).1 true).1
            true).2) = 1 := by
  decide

/-- Characterization of a successful enable from a disabled state: the
resulting mode, and the notification stream — the visibility
notification from inside `RevealUI` preceding `OnImmersiveModeToggled
(true)` when an input signal is held. -/
theorem setEnabled_enable_char (cfg : Config) (s : CState)
    (hm : s.mode = Mode.disabled)
    (hr : (cfg.respectLegacyFullscreenPref && cfg.legacyAlwaysShowToolbar) = false) :
    (SetEnabled cfg s true).1.mode
        = (if s.shouldShowUi || s.addressBarFocused then Mode.revealed else Mode.enabled) ∧
      (SetEnabled cfg s true).2
        = (if s.shouldShowUi || s.addressBarFocused then
            [Note.visibilityChanged true, Note.modeToggled true]
          else [Note.modeToggled true]) := by
  obtain ⟨mo, an, ssu, abf, mte, tp, ash, arn, sv, hsi⟩ := s
  replace hm : mo = Mode.disabled := hm
  subst hm
  cases ssu <;> cases abf <;>
    simp [SetEnabled, IsEnabled, ShouldDisableImmersiveMode, RevealUI, CancelAutoHide,
      IsUIVisible, hr]

/-- Enabling from an already-enabled state is a no-op (the first guard
of `SetEnabled`). -/
theorem SetEnabled_true_noop (cfg : Config) (t : CState)
    (ht : ¬ t.mode = Mode.disabled) : SetEnabled cfg t true = (t, []) := by
  obtain ⟨mo, an, ssu, abf, mte, tp, ash, arn, sv, hsi⟩ := t
  simp only [SetEnabled, IsEnabled]
  split_ifs <;> simp_all

/-- Claim C8 (amended): from a disabled state in which enabling is not
suppressed by the legacy condition, `SetEnabled(true)` twice in a row
produces exactly one `OnImmersiveModeToggled(true)` notification, the
second call is a no-op, and the state after both calls equals the state
after the first alone. -/
theorem setEnabledTwice_amended (cfg : Config) (s : CState)
    (hm : s.mode = Mode.disabled)
    (hr : (cfg.respectLegacyFullscreenPref && cfg.legacyAlwaysShowToolbar) = false) :
    countModeToggledTrue ((SetEnabled cfg s true).2 ++
      (SetEnabled cfg (SetEnabled cfg s true).1 true).2) = 1 ∧
    SetEnabled cfg (SetEnabled cfg s true).1 true = ((SetEnabled cfg s true).1, []) := by
  obtain ⟨hmode, hnotes⟩ := setEnabled_enable_char cfg s hm hr
  have h2 : ¬ (SetEnabled cfg s true).1.mode = Mode.disabled := by
    rw [hmode]
    split_ifs <;> simp
  have hnoop : SetEnabled cfg (SetEnabled cfg s true).1 true
      = ((SetEnabled cfg s true).1, []) := SetEnabled_true_noop cfg _ h2
  refine ⟨?_, hnoop⟩
  rw [hnoop, hnotes]
  split_ifs <;> simp [countModeToggledTrue]

/-- Claim C8 (witness): enabling twice from the fresh state under the
default configuration notifies the toggle exactly once and the second
call is a no-op. -/
theorem setEnabledTwice_amended_witness :
    countModeToggledTrue ((SetEnabled defaultConfig initState true).2 ++
      (SetEnabled defaultConfig (SetEnabled defaultConfig initState true).1 true).2) = 1 ∧
    SetEnabled defaultConfig (SetEnabled defaultConfig initState true).1 true
      = ((SetEnabled defaultConfig initState true).1, []) :=
  setEnabledTwice_amended defaultConfig initState rfl rfl

/-- Claim C9: every successful `SetEnabled(true)` — from a disabled
state, not suppressed by the legacy condition — writes the persistent
`kHasSeenIntroduction` preference to true (local_model_classifier.cc:
342-344), as unit test `IntroductionTrackingPreference` requires. -/
theorem setEnabled_writes_introduction (cfg : Config) (s : CState)
    (hm : s.mode = Mode.disabled)
    (hr : (cfg.respectLegacyFullscreenPref && cfg.legacyAlwaysShowToolbar) = false) :
    (SetEnabled cfg s true).1.hasSeenIntroduction = true := by
  obtain ⟨mo, an, ssu, abf, mte, tp, ash, arn, sv, hsi⟩ := s
  replace hm : mo = Mode.disabled := hm
  subst hm
  cases ssu <;> cases abf <;>
    simp [SetEnabled, IsEnabled, ShouldDisableImmersiveMode, RevealUI, CancelAutoHide,
      IsUIVisible, hr]

/-- Claim C9 (witness): enabling from the fresh state under the default
configuration records the introduction as seen. -/
theorem setEnabled_writes_introduction_witness :
    (SetEnabled defaultConfig initState true).1.hasSeenIntroduction = true :=
  setEnabled_writes_introduction defaultConfig initState rfl rfl

/-- Claim C10: while the JavaScript handler is enabled, a window-resize
event leaves the UI revealed and the auto-hide timeout scheduled — a
reveal trigger beyond the host signals the spec enumerates. -/
theorem windowResize_reveals_and_schedules (s : JsState) (h : s.isEnabled = true) :
    (jsHandleWindowResize s).isUIVisible = true ∧
    (jsHandleWindowResize s).autoHideTimerPending = true := by
  simp only [jsHandleWindowResize, jsRevealUI, jsScheduleAutoHide, jsCancelAutoHide]
  split_ifs <;> simp_all

/-- Claim C10 (witness): a resize in the enabled, hidden JavaScript
state reveals the UI and schedules the auto-hide. -/
theorem windowResize_reveals_and_schedules_witness :
    (jsHandleWindowResize { jsInitState with isEnabled := true, isUIVisible := false }).isUIVisible = true ∧
    (jsHandleWindowResize { jsInitState with isEnabled := true, isUIVisible := false }).autoHideTimerPending = true :=
  windowResize_reveals_and_schedules
    { jsInitState with isEnabled := true, isUIVisible := false } rfl
